import Mathlib

/-
Verification of homework_bot (src/homework.py), a Telegram status-notifier
bot. We give a shallow embedding of the script: Python values are modelled
by an inductive type PyVal, exceptions by PyExc, and each function of the
script (check_tokens, get_api_answer, check_response, parse_status, the
while-loop of main) by an executable Lean definition translated directly
from the source. The loop is modelled as a fold over the list of
per-cycle environment behaviours (the fetch outcome and the delivery
outcome of each cycle).
-/

namespace HomeworkBot

/-- Model of the Python values the script manipulates: None, strings,
integers, lists, and string-keyed dicts (as association lists). -/
inductive PyVal where
  | none : PyVal
  | str : String → PyVal
  | int : Int → PyVal
  | list : List PyVal → PyVal
  | dict : List (String × PyVal) → PyVal

/-- Model of the Python exceptions the script raises inside a cycle:
TypeError and IndexError (raised by check_response and parse_status) and
StatusCodeException (raised by get_api_answer), each carrying the string
str(exception) used when the exception is interpolated into a message. -/
inductive PyExc where
  | typeError (msg : String)
  | indexError (msg : String)
  | statusCodeException (msg : String)
deriving DecidableEq

/-- Python str(e) for an exception e with one string argument: the
argument itself, as used by the f-string in main. -/
def excStr : PyExc → String
  | .typeError m => m
  | .indexError m => m
  | .statusCodeException m => m

mutual

/-- Python repr() of a modelled value (used by str() on lists and dicts). -/
def pyRepr : PyVal → String
  | .none => "None"
  | .str s => "\x27" ++ s ++ "\x27"
  | .int n => toString n
  | .list xs => "[" ++ pyReprItems xs ++ "]"
  | .dict kvs => "\x7b" ++ pyReprPairs kvs ++ "\x7d"

/-- Comma-separated reprs of list items. -/
def pyReprItems : List PyVal → String
  | [] => ""
  | [x] => pyRepr x
  | x :: rest => pyRepr x ++ ", " ++ pyReprItems rest

/-- Comma-separated reprs of dict entries. -/
def pyReprPairs : List (String × PyVal) → String
  | [] => ""
  | [(k, v)] => "\x27" ++ k ++ "\x27: " ++ pyRepr v
  | (k, v) :: rest => "\x27" ++ k ++ "\x27: " ++ pyRepr v ++ ", " ++ pyReprPairs rest

end

/-- Python str() of a modelled value, as used by f-string interpolation
(str of a string has no quotes; str of None is the text None). -/
def pyStr : PyVal → String
  | .none => "None"
  | .str s => s
  | .int n => toString n
  | .list xs => pyRepr (.list xs)
  | .dict kvs => pyRepr (.dict kvs)

/-- isinstance(v, dict). -/
def PyVal.isDict : PyVal → Bool
  | .dict _ => true
  | _ => false

/-- isinstance(v, list). -/
def PyVal.isList : PyVal → Bool
  | .list _ => true
  | _ => false

/-- Python dict.get(k): the value at key k, or None when the key is
absent (and None on a non-dict, which the script never does unguarded). -/
def PyVal.get (v : PyVal) (k : String) : PyVal :=
  match v with
  | .dict kvs => (kvs.lookup k).getD .none
  | _ => .none

/-- Python membership test: k in v, for the dict values the script
applies it to. -/
def PyVal.hasKey (v : PyVal) (k : String) : Bool :=
  match v with
  | .dict kvs => (kvs.lookup k).isSome
  | _ => false

/-- Python equality of a value with a string literal, as in
response.get(\x27code\x27) == \x27not_authenticated\x27. -/
def PyVal.isStrEq : PyVal → String → Bool
  | .str s, t => s == t
  | _, _ => false

/-- Module constant VAR_NAME_PRACTICUM_TOKEN of homework.py. -/
def VAR_NAME_PRACTICUM_TOKEN : String := "PRACTICUM_TOKEN"

/-- Module constant VAR_NAME_TELEGRAM_TOKEN of homework.py. -/
def VAR_NAME_TELEGRAM_TOKEN : String := "TELEGRAM_TOKEN"

/-- Module constant VAR_NAME_TELEGRAM_CHAT_ID of homework.py. -/
def VAR_NAME_TELEGRAM_CHAT_ID : String := "TELEGRAM_CHAT_ID"

/-- Module constant FROM_DATE of homework.py: the from_date timestamp
passed to every fetch. It is assigned once and never reassigned. -/
def FROM_DATE : Nat := 0

/-- Module constant RETRY_PERIOD of homework.py (seconds slept per cycle). -/
def RETRY_PERIOD : Nat := 600

/-- Module constant ENDPOINT of homework.py. -/
def ENDPOINT : String := "https://practicum.yandex.ru/api/user_api/homework_statuses/"

/-- Module constant HOMEWORK_VERDICTS of homework.py: the fixed localized
verdict text for each known status. -/
def HOMEWORK_VERDICTS : List (String × String) :=
  [("approved", "Работа проверена: ревьюеру всё понравилось. Ура!"),
   ("reviewing", "Работа взята на проверку ревьюером."),
   ("rejected", "Работа проверена: у ревьюера есть замечания.")]

/-- Python membership and lookup homework[\x27status\x27] in
HOMEWORK_VERDICTS: a non-string value is not equal to any of the string
keys, so it is not a member. -/
def verdictLookup : PyVal → Option String
  | .str s => HOMEWORK_VERDICTS.lookup s
  | _ => none

/-- Function check_response of homework.py, translated line by line: the
isinstance(dict) guard, the two error-envelope guards on the code field,
the isinstance(list) guard on homeworks, and the final eager extraction
response.get(\x27homeworks\x27)[0], which raises IndexError on an empty
list. -/
def check_response (response : PyVal) : Except PyExc PyVal :=
  if !response.isDict then
    .error (.typeError "type(response) is not dict")
  else if (response.get "code").isStrEq "not_authenticated" then
    .error (.typeError (pyStr (response.get "message")))
  else if (response.get "code").isStrEq "UnknownError" then
    .error (.typeError (pyStr (response.get "error")))
  else if !(response.get "homeworks").isList then
    .error (.typeError "type(response.get(\x27homeworks\x27)) is not list")
  else
    match response.get "homeworks" with
    | .list [] => .error (.indexError "list index out of range")
    | .list (h :: _) => .ok h
    | _ => .error (.indexError "list index out of range")

/-- Function parse_status of homework.py, translated line by line: the
two key-presence guards, the membership guard on HOMEWORK_VERDICTS, and
the formatted status sentence. -/
def parse_status (homework : PyVal) : Except PyExc String :=
  if !homework.hasKey "homework_name" then
    .error (.indexError "No key \x27homework_name\x27 in homework")
  else if !homework.hasKey "status" then
    .error (.indexError "No such key \"status\" in homework")
  else
    match verdictLookup (homework.get "status") with
    | none => .error (.indexError "No such key homework[status] in HOMEWORK_VERDICTS")
    | some verdict =>
        .ok ("Изменился статус проверки работы \"" ++ pyStr (homework.get "homework_name")
          ++ "\". " ++ verdict)

/-- Behaviour of the remote endpoint in one cycle, as observed by
get_api_answer: an HTTP 200 response with a JSON payload, a non-200
status code, or a requests.RequestException during the request. -/
inductive FetchResult where
  | ok (payload : PyVal)
  | badStatus (code : Nat)
  | transportFailure

/-- Function get_api_answer of homework.py, as a function of the
from_date timestamp it sends and the endpoint behaviour: on HTTP 200 it
returns the JSON payload; on any other status code it raises
StatusCodeException (defined in the local exceptions module, not a
requests.RequestException, so it escapes the except clause); on a
requests.RequestException it logs and falls through, returning None. -/
def get_api_answer (timestamp : Nat) (fetch : FetchResult) : Except PyExc PyVal :=
  match timestamp, fetch with
  | _, .ok payload => .ok payload
  | _, .badStatus code =>
      .error (.statusCodeException
        ("Эндпоинт " ++ ENDPOINT ++ " недоступен. Код ответа API: " ++ toString code))
  | _, .transportFailure => .ok .none

/-- The body of the try block of one cycle of main: fetch, validate,
format. -/
def cyclePipeline (timestamp : Nat) (fetch : FetchResult) : Except PyExc String :=
  (get_api_answer timestamp fetch).bind (fun ans =>
    (check_response ans).bind (fun hw => parse_status hw))

/-- The message a cycle of main derives: the status sentence when the
try block succeeds, and the except-clause message
(Сбой в работе программы: {error}) when any exception is raised. -/
def deriveMessage (timestamp : Nat) (fetch : FetchResult) : String :=
  match cyclePipeline timestamp fetch with
  | .ok m => m
  | .error e => "Сбой в работе программы: " ++ excStr e

/-- One full cycle of the while loop of main: derive the message, then
in the finally block compare it to the remembered message and, when
different, update the remembered message and call send_message. The
state is the variable message (None before the first cycle); the Bool
component records whether send_message was invoked. deliveryOk is the
delivery outcome of send_message, which catches its own exceptions and
only logs, so it does not influence the cycle. -/
def cycle (st : Option String) (timestamp : Nat) (fetch : FetchResult)
    (_deliveryOk : Bool) : Option String × Bool :=
  if some (deriveMessage timestamp fetch) ≠ st
  then (some (deriveMessage timestamp fetch), true)
  else (st, false)

/-- The while loop of main, run over a finite prefix of the infinite
sequence of per-cycle environment behaviours. Each emitted entry records
the from_date timestamp the cycle passed to get_api_answer (main always
passes the module constant FROM_DATE), whether send_message was invoked,
and the derived message. -/
def runLoop (st : Option String) : List (FetchResult × Bool) → List (Nat × Bool × String)
  | [] => []
  | (fetch, deliveryOk) :: rest =>
      let c := cycle st FROM_DATE fetch deliveryOk
      (FROM_DATE, c.2, deriveMessage FROM_DATE fetch) :: runLoop c.1 rest

/-- Modelled from the spec: the exceptions module of the repository is
not under src/; homework.py imports from it the three distinct exception
classes PracticumTokenException, TelegramTokenException and
TelegramChatIdException used by check_tokens, per the spec's three
distinct failure kinds for the three configuration values. -/
inductive ConfigExc where
  | practicumTokenExc (msg : String)
  | telegramTokenExc (msg : String)
  | telegramChatIdExc (msg : String)
deriving DecidableEq

/-- The three environment values read at module load: PRACTICUM_TOKEN,
TELEGRAM_TOKEN, TELEGRAM_CHAT_ID (os.getenv returns None when a variable
is absent). -/
structure Config where
  practicumToken : Option String
  telegramToken : Option String
  telegramChatId : Option String

/-- The diagnostic text of check_tokens with the variable name
substituted (the three adjacent string literals of the source,
concatenated). -/
def tokenErrInfo (varName : String) : String :=
  "Отсутствует обязательная переменная окружения: " ++ varName
    ++ " Программа принудительно остановлена."

/-- Function check_tokens of homework.py, translated guard by guard: the
three None checks in source order, each raising its own exception class
with the diagnostic naming the missing variable. -/
def check_tokens (c : Config) : Except ConfigExc Unit :=
  if c.practicumToken.isNone then
    .error (.practicumTokenExc (tokenErrInfo VAR_NAME_PRACTICUM_TOKEN))
  else if c.telegramToken.isNone then
    .error (.telegramTokenExc (tokenErrInfo VAR_NAME_TELEGRAM_TOKEN))
  else if c.telegramChatId.isNone then
    .error (.telegramChatIdExc (tokenErrInfo VAR_NAME_TELEGRAM_CHAT_ID))
  else
    .ok ()

/-- Function main of homework.py: check_tokens runs first and its
exception terminates the process before the loop; otherwise the loop
runs with message initialized to None. -/
def mainRun (c : Config) (inputs : List (FetchResult × Bool)) :
    Except ConfigExc (List (Nat × Bool × String)) :=
  match check_tokens c with
  | .error e => .error e
  | .ok _ => .ok (runLoop none inputs)

/-- Follows the spec's words, not the source: the spec's MalformedResponse
validation failure corresponds to the two raise sites of check_response
whose diagnostics are the not-dict and not-list texts. -/
def specMalformedResponse : PyExc → Bool
  | .typeError m =>
      m == "type(response) is not dict"
        || m == "type(response.get(\x27homeworks\x27)) is not list"
  | _ => false

/-- C1: in every cycle, any exception raised by the fetch, validation or
formatting pipeline is converted into the message
Сбой в работе программы: {error}, and the loop processes every cycle of
its input (no in-cycle error escapes the loop body). -/
theorem c1_cycle_failure_isolation :
    (∀ (ts : Nat) (fetch : FetchResult) (e : PyExc),
      cyclePipeline ts fetch = .error e →
      deriveMessage ts fetch = "Сбой в работе программы: " ++ excStr e) ∧
    (∀ (st : Option String) (inputs : List (FetchResult × Bool)),
      (runLoop st inputs).length = inputs.length) := by
  constructor
  · intro ts fetch e h
    unfold deriveMessage
    rw [h]
  · intro st inputs
    induction inputs generalizing st with
    | nil => rfl
    | cons x rest ih => simp [runLoop, ih]

/-- Witness for C1: a transport failure surfaces as a None payload, the
validator raises, and the cycle derives the program-failure message. -/
theorem c1_witness :
    cyclePipeline FROM_DATE .transportFailure =
      .error (.typeError "type(response) is not dict") ∧
    deriveMessage FROM_DATE .transportFailure =
      "Сбой в работе программы: " ++ excStr (.typeError "type(response) is not dict") :=
  ⟨rfl, c1_cycle_failure_isolation.1 FROM_DATE .transportFailure _ rfl⟩

/-- C2: send_message is invoked in a cycle exactly when the derived
message differs from the remembered message; the remembered message
becomes the derived message regardless of the delivery outcome; and a
second consecutive cycle deriving the identical message does not invoke
send_message again. -/
theorem c2_notify_iff_changed :
    ∀ (st : Option String) (ts : Nat) (fetch : FetchResult) (deliveryOk : Bool),
      ((cycle st ts fetch deliveryOk).2 = true ↔ some (deriveMessage ts fetch) ≠ st) ∧
      (cycle st ts fetch deliveryOk).1 = some (deriveMessage ts fetch) ∧
      cycle st ts fetch true = cycle st ts fetch false ∧
      (∀ (fetch2 : FetchResult) (d2 : Bool),
        deriveMessage ts fetch2 = deriveMessage ts fetch →
        (cycle (cycle st ts fetch deliveryOk).1 ts fetch2 d2).2 = false) := by
  intro st ts fetch d
  have hstate : ∀ (st' : Option String) (d' : Bool),
      (cycle st' ts fetch d').1 = some (deriveMessage ts fetch) := by
    intro st' d'
    unfold cycle
    split
    · rfl
    · next h => exact (not_ne_iff.mp h).symm
  refine ⟨?_, hstate st d, rfl, ?_⟩
  · unfold cycle
    split
    · next h => simpa using h
    · next h => simpa using h
  · intro fetch2 d2 hEq
    rw [hstate st d]
    unfold cycle
    rw [hEq]
    simp

/-- Witness for C2 at concrete inputs: the first cycle (remembered
message None) sends, and a repeat of the identical derivation does not. -/
theorem c2_witness :
    ((cycle none FROM_DATE .transportFailure true).2 = true ↔
      some (deriveMessage FROM_DATE .transportFailure) ≠ none) ∧
    (cycle (cycle none FROM_DATE .transportFailure true).1
      FROM_DATE .transportFailure false).2 = false :=
  ⟨(c2_notify_iff_changed none FROM_DATE .transportFailure true).1,
   (c2_notify_iff_changed none FROM_DATE .transportFailure true).2.2.2
     .transportFailure false rfl⟩

/-- C3: the payload with one approved homework hw1 derives exactly the
expected localized sentence, and in general a record whose status is a
key of HOMEWORK_VERDICTS formats to the sentence embedding the homework
name and that status's verdict text. -/
theorem c3_approved_scenario :
    deriveMessage FROM_DATE (.ok (PyVal.dict
        [("homeworks", PyVal.list
          [PyVal.dict [("homework_name", PyVal.str "hw1"),
                       ("status", PyVal.str "approved")]])])) =
      "Изменился статус проверки работы \"hw1\". Работа проверена: ревьюеру всё понравилось. Ура!" ∧
    (∀ (hw : PyVal) (name status verdict : String),
      hw.hasKey "homework_name" = true →
      hw.get "homework_name" = PyVal.str name →
      hw.hasKey "status" = true →
      hw.get "status" = PyVal.str status →
      HOMEWORK_VERDICTS.lookup status = some verdict →
      parse_status hw =
        .ok ("Изменился статус проверки работы \"" ++ name ++ "\". " ++ verdict)) := by
  constructor
  · rfl
  · intro hw name status verdict hhas hget hhass hgets hverd
    simp [parse_status, hhas, hhass, hgets, hget, verdictLookup, hverd, pyStr]

/-- Witness for C3: the general formatting statement applied to the hw1
record with status approved. -/
theorem c3_witness :
    parse_status (PyVal.dict [("homework_name", PyVal.str "hw1"),
        ("status", PyVal.str "approved")]) =
      .ok ("Изменился статус проверки работы \"" ++ "hw1" ++ "\". "
        ++ "Работа проверена: ревьюеру всё понравилось. Ура!") :=
  c3_approved_scenario.2
    (PyVal.dict [("homework_name", PyVal.str "hw1"), ("status", PyVal.str "approved")])
    "hw1" "approved" "Работа проверена: ревьюеру всё понравилось. Ура!"
    rfl rfl rfl rfl rfl

/-- C4 (counterexample): a mapping whose homeworks key is missing but
which carries the code not_authenticated fails at the error-envelope
raise site (here with the text None of the absent message field), not
with either MalformedResponse diagnostic, so the claim's universal
statement over all mappings with missing or non-list homeworks is false
as stated. -/
theorem c4_counterexample :
    (PyVal.dict [("code", PyVal.str "not_authenticated")]).isDict = true ∧
    ((PyVal.dict [("code", PyVal.str "not_authenticated")]).get "homeworks").isList = false ∧
    check_response (PyVal.dict [("code", PyVal.str "not_authenticated")]) =
      .error (.typeError "None") ∧
    specMalformedResponse (.typeError "None") = false :=
  ⟨rfl, rfl, rfl, rfl⟩

/-- C4 (amended): every non-mapping payload (including the None payload
of a transport failure) fails with the MalformedResponse not-dict
diagnostic; every mapping whose code field is not a known error-envelope
sentinel and whose homeworks value is missing or not a list fails with
the MalformedResponse not-list diagnostic; and the loop converts the
None payload into a program-failure message instead of crashing. -/
theorem c4_malformed_response :
    (∀ r : PyVal, r.isDict = false →
      check_response r = .error (.typeError "type(response) is not dict")) ∧
    check_response PyVal.none = .error (.typeError "type(response) is not dict") ∧
    (∀ r : PyVal, r.isDict = true →
      (r.get "code").isStrEq "not_authenticated" = false →
      (r.get "code").isStrEq "UnknownError" = false →
      (r.get "homeworks").isList = false →
      check_response r =
        .error (.typeError "type(response.get(\x27homeworks\x27)) is not list")) ∧
    specMalformedResponse (.typeError "type(response) is not dict") = true ∧
    specMalformedResponse
      (.typeError "type(response.get(\x27homeworks\x27)) is not list") = true ∧
    deriveMessage FROM_DATE .transportFailure =
      "Сбой в работе программы: type(response) is not dict" := by
  refine ⟨?_, rfl, ?_, rfl, rfl, rfl⟩
  · intro r h
    simp [check_response, h]
  · intro r h1 h2 h3 h4
    simp [check_response, h1, h2, h3, h4]

/-- Witness for C4 (amended): the not-dict case at an integer payload
and the not-list case at a mapping whose homeworks value is a string. -/
theorem c4_witness :
    check_response (PyVal.int 5) = .error (.typeError "type(response) is not dict") ∧
    check_response (PyVal.dict [("homeworks", PyVal.str "oops")]) =
      .error (.typeError "type(response.get(\x27homeworks\x27)) is not list") :=
  ⟨c4_malformed_response.1 (PyVal.int 5) rfl,
   c4_malformed_response.2.2.1 (PyVal.dict [("homeworks", PyVal.str "oops")])
     rfl rfl rfl rfl⟩

/-- C5: every mapping carrying the envelope code not_authenticated fails
at the RemoteError raise site with the text of its message field; every
mapping carrying the envelope code UnknownError fails there with the
text of its error field; the scenario payload fails with the text
invalid token. -/
theorem c5_remote_error :
    (∀ r : PyVal, r.isDict = true →
      (r.get "code").isStrEq "not_authenticated" = true →
      check_response r = .error (.typeError (pyStr (r.get "message")))) ∧
    (∀ r : PyVal, r.isDict = true →
      (r.get "code").isStrEq "UnknownError" = true →
      check_response r = .error (.typeError (pyStr (r.get "error")))) ∧
    check_response (PyVal.dict [("code", PyVal.str "not_authenticated"),
        ("message", PyVal.str "invalid token")]) =
      .error (.typeError "invalid token") := by
  refine ⟨?_, ?_, rfl⟩
  · intro r h1 h2
    simp [check_response, h1, h2]
  · intro r h1 h2
    have hne : (r.get "code").isStrEq "not_authenticated" = false := by
      revert h2
      cases r.get "code" <;> simp [PyVal.isStrEq]
      intro h
      simp [h]
    simp [check_response, h1, hne, h2]

/-- Witness for C5: both envelope codes at concrete payloads. -/
theorem c5_witness :
    check_response (PyVal.dict [("code", PyVal.str "not_authenticated"),
        ("message", PyVal.str "invalid token")]) =
      .error (.typeError (pyStr ((PyVal.dict [("code", PyVal.str "not_authenticated"),
        ("message", PyVal.str "invalid token")]).get "message"))) ∧
    check_response (PyVal.dict [("code", PyVal.str "UnknownError"),
        ("error", PyVal.str "boom")]) =
      .error (.typeError (pyStr ((PyVal.dict [("code", PyVal.str "UnknownError"),
        ("error", PyVal.str "boom")]).get "error"))) :=
  ⟨c5_remote_error.1 (PyVal.dict [("code", PyVal.str "not_authenticated"),
      ("message", PyVal.str "invalid token")]) rfl rfl,
   c5_remote_error.2.1 (PyVal.dict [("code", PyVal.str "UnknownError"),
      ("error", PyVal.str "boom")]) rfl rfl⟩

/-- C6: the formatter fails at the missing-homework_name raise site when
the homework_name key is absent; at the missing-status raise site when
homework_name is present and status absent; at the unknown-status raise
site when both keys are present but the status value is not a key of
HOMEWORK_VERDICTS; and succeeds otherwise. -/
theorem c6_formatter_errors :
    ∀ hw : PyVal,
      (hw.hasKey "homework_name" = false →
        parse_status hw = .error (.indexError "No key \x27homework_name\x27 in homework")) ∧
      (hw.hasKey "homework_name" = true → hw.hasKey "status" = false →
        parse_status hw = .error (.indexError "No such key \"status\" in homework")) ∧
      (hw.hasKey "homework_name" = true → hw.hasKey "status" = true →
        verdictLookup (hw.get "status") = none →
        parse_status hw =
          .error (.indexError "No such key homework[status] in HOMEWORK_VERDICTS")) ∧
      (hw.hasKey "homework_name" = true → hw.hasKey "status" = true →
        ∀ verdict : String, verdictLookup (hw.get "status") = some verdict →
        parse_status hw =
          .ok ("Изменился статус проверки работы \"" ++ pyStr (hw.get "homework_name")
            ++ "\". " ++ verdict)) := by
  intro hw
  refine ⟨?_, ?_, ?_, ?_⟩
  · intro h1
    simp [parse_status, h1]
  · intro h1 h2
    simp [parse_status, h1, h2]
  · intro h1 h2 h3
    simp [parse_status, h1, h2, h3]
  · intro h1 h2 verdict h3
    simp [parse_status, h1, h2, h3]

/-- Witness for C6: all four branches at concrete homework records. -/
theorem c6_witness :
    parse_status (PyVal.dict []) =
      .error (.indexError "No key \x27homework_name\x27 in homework") ∧
    parse_status (PyVal.dict [("homework_name", PyVal.str "hw1")]) =
      .error (.indexError "No such key \"status\" in homework") ∧
    parse_status (PyVal.dict [("homework_name", PyVal.str "hw1"),
        ("status", PyVal.str "weird")]) =
      .error (.indexError "No such key homework[status] in HOMEWORK_VERDICTS") ∧
    parse_status (PyVal.dict [("homework_name", PyVal.str "hw1"),
        ("status", PyVal.str "rejected")]) =
      .ok ("Изменился статус проверки работы \""
        ++ pyStr ((PyVal.dict [("homework_name", PyVal.str "hw1"),
            ("status", PyVal.str "rejected")]).get "homework_name")
        ++ "\". " ++ "Работа проверена: у ревьюера есть замечания.") :=
  ⟨(c6_formatter_errors (PyVal.dict [])).1 rfl,
   (c6_formatter_errors (PyVal.dict [("homework_name", PyVal.str "hw1")])).2.1 rfl rfl,
   (c6_formatter_errors (PyVal.dict [("homework_name", PyVal.str "hw1"),
      ("status", PyVal.str "weird")])).2.2.1 rfl rfl rfl,
   (c6_formatter_errors (PyVal.dict [("homework_name", PyVal.str "hw1"),
      ("status", PyVal.str "rejected")])).2.2.2 rfl rfl
     "Работа проверена: у ревьюера есть замечания." rfl⟩

/-- C7: the payload with an empty homeworks list makes the validator's
eager extraction of element 0 raise IndexError, and the cycle converts
that into a program-failure message instead of crashing. -/
theorem c7_empty_homeworks :
    check_response (PyVal.dict [("homeworks", PyVal.list [])]) =
      .error (.indexError "list index out of range") ∧
    deriveMessage FROM_DATE (.ok (PyVal.dict [("homeworks", PyVal.list [])])) =
      "Сбой в работе программы: list index out of range" :=
  ⟨rfl, rfl⟩

/-- C8: the poll cursor is the module constant FROM_DATE, equal to 0,
and every cycle of the loop performs its fetch with that same from_date
value; no cycle ever advances it. -/
theorem c8_cursor_never_advances :
    FROM_DATE = 0 ∧
    ∀ (st : Option String) (inputs : List (FetchResult × Bool)),
      (runLoop st inputs).all (fun entry => entry.1 == 0) = true := by
  refine ⟨rfl, ?_⟩
  intro st inputs
  induction inputs generalizing st with
  | nil => rfl
  | cons x rest ih => simp [runLoop, ih, FROM_DATE]

/-- C9: with PRACTICUM_TOKEN and TELEGRAM_TOKEN present but
TELEGRAM_CHAT_ID absent, main terminates before the loop with the
TelegramChatIdException kind whose diagnosis names TELEGRAM_CHAT_ID; the
three configuration-failure kinds are pairwise distinct. -/
theorem c9_config_missing_chat_id :
    (∀ (c : Config) (p t : String),
      c.practicumToken = some p → c.telegramToken = some t →
      c.telegramChatId = none →
      ∀ inputs : List (FetchResult × Bool),
        mainRun c inputs =
          .error (.telegramChatIdExc (tokenErrInfo VAR_NAME_TELEGRAM_CHAT_ID))) ∧
    tokenErrInfo VAR_NAME_TELEGRAM_CHAT_ID =
      "Отсутствует обязательная переменная окружения: TELEGRAM_CHAT_ID Программа принудительно остановлена." ∧
    (∀ m1 m2 : String, ConfigExc.practicumTokenExc m1 ≠ ConfigExc.telegramTokenExc m2) ∧
    (∀ m1 m2 : String, ConfigExc.practicumTokenExc m1 ≠ ConfigExc.telegramChatIdExc m2) ∧
    (∀ m1 m2 : String, ConfigExc.telegramTokenExc m1 ≠ ConfigExc.telegramChatIdExc m2) := by
  refine ⟨?_, rfl, ?_, ?_, ?_⟩
  · intro c p t h1 h2 h3 inputs
    simp [mainRun, check_tokens, h1, h2, h3]
  · intro m1 m2 h
    exact ConfigExc.noConfusion h
  · intro m1 m2 h
    exact ConfigExc.noConfusion h
  · intro m1 m2 h
    exact ConfigExc.noConfusion h

/-- Witness for C9: the concrete configuration with only the chat id
missing, run on an empty input trace. -/
theorem c9_witness :
    mainRun ⟨some "ptok", some "ttok", none⟩ [] =
      .error (.telegramChatIdExc (tokenErrInfo VAR_NAME_TELEGRAM_CHAT_ID)) :=
  c9_config_missing_chat_id.1 ⟨some "ptok", some "ttok", none⟩ "ptok" "ttok"
    rfl rfl rfl []

/-- C10: check_tokens examines PRACTICUM_TOKEN, then TELEGRAM_TOKEN,
then TELEGRAM_CHAT_ID, and fails on the first absent one, so when
several are missing at once only the first missing one in that order is
diagnosed. -/
theorem c10_first_missing_wins :
    (∀ c : Config, c.practicumToken = none →
      check_tokens c =
        .error (.practicumTokenExc (tokenErrInfo VAR_NAME_PRACTICUM_TOKEN))) ∧
    (∀ (c : Config) (p : String), c.practicumToken = some p →
      c.telegramToken = none →
      check_tokens c =
        .error (.telegramTokenExc (tokenErrInfo VAR_NAME_TELEGRAM_TOKEN))) ∧
    (∀ (c : Config) (p t : String), c.practicumToken = some p →
      c.telegramToken = some t → c.telegramChatId = none →
      check_tokens c =
        .error (.telegramChatIdExc (tokenErrInfo VAR_NAME_TELEGRAM_CHAT_ID))) := by
  refine ⟨?_, ?_, ?_⟩
  · intro c h1
    simp [check_tokens, h1]
  · intro c p h1 h2
    simp [check_tokens, h1, h2]
  · intro c p t h1 h2 h3
    simp [check_tokens, h1, h2, h3]

/-- Witness for C10: with all three values missing only PRACTICUM_TOKEN
is diagnosed; with the first present and both others missing only
TELEGRAM_TOKEN is diagnosed; with the first two present and the chat id
missing TELEGRAM_CHAT_ID is diagnosed. -/
theorem c10_witness :
    check_tokens ⟨none, none, none⟩ =
      .error (.practicumTokenExc (tokenErrInfo VAR_NAME_PRACTICUM_TOKEN)) ∧
    check_tokens ⟨some "p", none, none⟩ =
      .error (.telegramTokenExc (tokenErrInfo VAR_NAME_TELEGRAM_TOKEN)) ∧
    check_tokens ⟨some "p", some "t", none⟩ =
      .error (.telegramChatIdExc (tokenErrInfo VAR_NAME_TELEGRAM_CHAT_ID)) :=
  ⟨c10_first_missing_wins.1 ⟨none, none, none⟩ rfl,
   c10_first_missing_wins.2.1 ⟨some "p", none, none⟩ "p" rfl rfl,
   c10_first_missing_wins.2.2 ⟨some "p", some "t", none⟩ "p" "t" rfl rfl rfl⟩

end HomeworkBot
